import Mathlib

/-!
Shallow embedding of the Telemetry-App backend core (configuration manager,
websocket manager / event log, telemetry simulator) and verification of the
specification claims C1-C10 about it.

Python runtime values are modelled by `PyVal`; Python floats are modelled as
rationals (only ordering and equality on them matter to the embedded code).
Exceptions are modelled with `Except PyErr` where the source can raise.
-/

namespace TelemetryApp

/-- Python runtime values as they flow through the backend: ints, floats
(modelled as rationals), strings, booleans, lists, string-keyed dicts and
`None`. -/
inductive PyVal : Type
  | int (n : Int)
  | float (q : ℚ)
  | str (s : String)
  | bool (b : Bool)
  | list (xs : List PyVal)
  | dict (xs : List (String × PyVal))
  | none

/-- Python `isinstance(v, int)`: `bool` is a subclass of `int` in Python, so
booleans pass this check as well. -/
def PyVal.isinstance_int : PyVal → Bool
  | .int _ => true
  | .bool _ => true
  | _ => false

/-- Python `isinstance(v, (int, float))`; booleans pass (bool subclasses int). -/
def PyVal.isinstance_int_or_float : PyVal → Bool
  | .float _ => true
  | v => v.isinstance_int

/-- Python `isinstance(v, str)`. -/
def PyVal.isinstance_str : PyVal → Bool
  | .str _ => true
  | _ => false

/-- Python `isinstance(v, bool)`. -/
def PyVal.isinstance_bool : PyVal → Bool
  | .bool _ => true
  | _ => false

/-- Numeric value of a Python number; `True == 1` and `False == 0`.
Only meaningful when `isinstance_int_or_float` holds. -/
def PyVal.toNum : PyVal → ℚ
  | .int n => (n : ℚ)
  | .float q => q
  | .bool b => if b then 1 else 0
  | _ => 0

/-- Numeric value of a Python number, or `Option.none` for non-numbers. -/
def PyVal.toNumOpt : PyVal → Option ℚ
  | .int n => some ((n : ℚ))
  | .float q => some q
  | .bool b => some (if b then 1 else 0)
  | _ => Option.none

mutual

/-- Python `==` on the value shapes the embedded code compares: numbers
(including booleans) compare by numeric value across kinds, strings compare as
strings, lists compare elementwise, distinct shapes are unequal.  Dicts compare
entrywise in order (an approximation of Python dict equality; in the embedded
code one side of every reachable comparison is a scalar, where this coincides
with Python). -/
def pyEq : PyVal → PyVal → Bool
  | .str s, .str t => s == t
  | .list xs, .list ys => pyEqList xs ys
  | .dict xs, .dict ys => pyEqDict xs ys
  | .none, .none => true
  | a, b =>
    if a.isinstance_int_or_float && b.isinstance_int_or_float then
      a.toNum == b.toNum
    else false

/-- Elementwise Python `==` on lists. -/
def pyEqList : List PyVal → List PyVal → Bool
  | [], [] => true
  | x :: xs, y :: ys => pyEq x y && pyEqList xs ys
  | _, _ => false

/-- Entrywise Python `==` on dicts. -/
def pyEqDict : List (String × PyVal) → List (String × PyVal) → Bool
  | [], [] => true
  | (k, v) :: xs, (l, w) :: ys => k == l && pyEq v w && pyEqDict xs ys
  | _, _ => false

end

/-- Python `v in xs` for a list `xs` (membership via `==`). -/
def pyIn (v : PyVal) (xs : List PyVal) : Bool :=
  xs.any (fun x => pyEq v x)

/-- First value bound to a key in a string-keyed association list (Python dict
keys are unique; lookups read the single binding). -/
def dictLookup {α : Type} (d : List (String × α)) (k : String) : Option α :=
  (d.find? (fun kv => kv.1 == k)).map (fun kv => kv.2)

/-- Python `d.get(key, default)` on a dict of `PyVal`s. -/
def dictGet (d : List (String × PyVal)) (k : String) (default : PyVal) : PyVal :=
  match dictLookup d k with
  | some v => v
  | Option.none => default

/-- Python exceptions the embedded code can raise or catch. -/
inductive PyErr : Type
  | keyError (msg : String)
  | typeError (msg : String)
  | valueError (msg : String)
deriving DecidableEq

/-- Rendering of a value inside a reason string (Python interpolates values
into f-strings; the exact rendering is not load-bearing for any claim). -/
def PyVal.render : PyVal → String
  | .int n => toString n
  | .float q => toString q
  | .str s => "\x27" ++ s ++ "\x27"
  | .bool b => if b then ("True") else ("False")
  | .list _ => "[...]"
  | .dict _ => "\x7b...\x7d"
  | .none => "None"

/-- Rendering of a list of values inside a reason string. -/
def pyRenderList (es : List PyVal) : String :=
  "[" ++ String.intercalate (", ") (es.map PyVal.render) ++ "]"

/-! ## models/configuration.py -/

/-- Supported data types for telemetry values (`DataType` in
`models/configuration.py`). -/
inductive DataType : Type
  | int | float | string | boolean | array | object
deriving DecidableEq

/-- `.value` of the str-enum member. -/
def DataType.value : DataType → String
  | .int => "int"
  | .float => "float"
  | .string => "string"
  | .boolean => "boolean"
  | .array => "array"
  | .object => "object"

/-- `TelemetryTypeConfig`: configuration template for a telemetry type.
`range` keeps the raw numeric dict (only its `min` / `max` keys are ever
consulted). -/
structure TelemetryTypeConfig : Type where
  unit : Option String := Option.none
  data_type : DataType
  range : Option (List (String × ℚ)) := Option.none
  description : String
  enum : Option (List PyVal) := Option.none

/-- `CommandParameter`: configuration for a command parameter. -/
structure CommandParameter : Type where
  type : String
  required : Bool := true
  enum : Option (List PyVal) := Option.none
  description : Option String := Option.none

/-- `CommandTemplate`: template defining an available command. -/
structure CommandTemplate : Type where
  command : String
  parameters : List (String × CommandParameter)
  description : String

/-! ## services/configuration_manager.py -/

/-- The mutable state of `ConfigurationManager`.  `datetime` values are
modelled as integers (only assignment, never arithmetic, happens to them). -/
structure ConfigurationManager : Type where
  telemetry_types : List (String × TelemetryTypeConfig)
  command_templates : List (String × CommandTemplate)
  last_updated : Int
  device_connected : Bool

/-- `get_telemetry_type` (lines 122-138): raises `KeyError` when the type is
not registered. -/
def ConfigurationManager.get_telemetry_type (mgr : ConfigurationManager)
    (type_id : String) : Except PyErr TelemetryTypeConfig :=
  match dictLookup mgr.telemetry_types type_id with
  | Option.none => .error (.keyError ("Telemetry type \x27" ++ type_id ++ "\x27 not found"))
  | some c => .ok c

/-- `get_command_template` (lines 140-156): raises `KeyError` when the command
is not registered. -/
def ConfigurationManager.get_command_template (mgr : ConfigurationManager)
    (command_id : String) : Except PyErr CommandTemplate :=
  match dictLookup mgr.command_templates command_id with
  | Option.none => .error (.keyError ("Command template \x27" ++ command_id ++ "\x27 not found"))
  | some t => .ok t

/-- The range and enum checks of `validate_telemetry_value` (lines 187-200),
applied to the (possibly float-coerced) value: the range block runs when a
non-empty range dict is declared and the value is a number
(`if config.range and isinstance(value, (int, float))`), checking
`value < min` then `value > max`; the enum block runs when a non-empty enum
list is declared (`if config.enum and value not in config.enum`). -/
def rangeEnumStages (config : TelemetryTypeConfig) (value : PyVal) :
    Bool × Option String :=
  let rangeMsg : Option String :=
    match config.range with
    | Option.none => Option.none
    | some r =>
      if !r.isEmpty && value.isinstance_int_or_float then
        let maxCheck : Option String :=
          match dictLookup r ("max") with
          | some max_val =>
            if max_val < value.toNum then
              some ("Value must be less than or equal to " ++ toString max_val)
            else Option.none
          | Option.none => Option.none
        match dictLookup r ("min") with
        | some min_val =>
          if value.toNum < min_val then
            some ("Value must be greater than or equal to " ++ toString min_val)
          else maxCheck
        | Option.none => maxCheck
      else Option.none
  match rangeMsg with
  | some msg => (false, some msg)
  | Option.none =>
    match config.enum with
    | some es =>
      if !es.isEmpty && !pyIn value es then
        (false, some ("Value must be one of " ++ pyRenderList es))
      else (true, Option.none)
    | Option.none => (true, Option.none)

/-- `validate_telemetry_value` (lines 158-203).  The `try` body can only raise
the `KeyError` from `get_telemetry_type`, which the `except KeyError` arm
catches; every other operation in the body is total (all comparisons are
guarded by `isinstance` checks).  The float branch rebinds
`value = float(value)` before the range and enum checks, as the source does. -/
def ConfigurationManager.validate_telemetry_value (mgr : ConfigurationManager)
    (type_id : String) (value : PyVal) : Except PyErr (Bool × Option String) :=
  match mgr.get_telemetry_type type_id with
  | .error (.keyError _) => .ok (false, some ("Unknown telemetry type"))
  | .error e => .error e
  | .ok config =>
    -- Check data type (early returns; "array" / "object" match no branch)
    let coerced : String ⊕ PyVal :=
      if config.data_type.value == "float" then
        if !value.isinstance_int_or_float then .inl ("Value must be a float or int")
        else .inr (PyVal.float value.toNum)
      else if config.data_type.value == "int" then
        if !value.isinstance_int then .inl ("Value must be an int") else .inr value
      else if config.data_type.value == "string" then
        if !value.isinstance_str then .inl ("Value must be a string") else .inr value
      else if config.data_type.value == "boolean" then
        if !value.isinstance_bool then .inl ("Value must be a boolean") else .inr value
      else .inr value
    match coerced with
    | .inl msg => .ok (false, some msg)
    | .inr value => .ok (rangeEnumStages config value)

/-- `_validate_parameter_type` (lines 244-277).  Despite its docstring saying
it returns `True` when the value matches, it returns a `(bool, message)`
tuple. -/
def validate_parameter_type (value : PyVal) (expected_type : String) :
    Bool × Option String :=
  if expected_type == "string" then
    if !value.isinstance_str then (false, some ("Value must be a string"))
    else (true, Option.none)
  else if expected_type == "int" then
    if !value.isinstance_int then (false, some ("Value must be an int"))
    else (true, Option.none)
  else if expected_type == "float" then
    if !value.isinstance_int_or_float then (false, some ("Value must be a float"))
    else (true, Option.none)
  else if expected_type == "boolean" then
    if !value.isinstance_bool then (false, some ("Value must be a boolean"))
    else (true, Option.none)
  else
    (false, some ("Unknown parameter type \x27" ++ expected_type ++ "\x27"))

/-- Python truthiness of a tuple: any non-empty tuple is truthy, whatever its
components hold. -/
def pyTruthyPair {α β : Type} (_p : α × β) : Bool := true

/-- The `for param_name, param_value in parameters.items()` loop of
`validate_command` (lines 225-237), iterating in dict insertion order with
early returns. -/
def checkProvidedParameters (template_parameters : List (String × CommandParameter))
    (command_id : String) : List (String × PyVal) → Bool × Option String
  | [] => (true, Option.none)
  | (param_name, param_value) :: rest =>
    match dictLookup template_parameters param_name with
    | Option.none =>
      (false, some ("Unknown parameter \x27" ++ param_name ++ "\x27 for command \x27" ++
        command_id ++ "\x27"))
    | some param_config =>
      -- `if not self._validate_parameter_type(param_value, param_config.type)`:
      -- the call returns a 2-tuple and Python `not` of a non-empty tuple is
      -- always False, so this rejection branch is dead code in the source.
      if !pyTruthyPair (validate_parameter_type param_value param_config.type) then
        (false, some ("Parameter \x27" ++ param_name ++ "\x27 has invalid type. Expected " ++
          param_config.type))
      else
        -- `if param_config.enum and param_value not in param_config.enum`
        let enumFails : Bool :=
          match param_config.enum with
          | some es => !es.isEmpty && !pyIn param_value es
          | Option.none => false
        if enumFails then
          (false, some ("Parameter \x27" ++ param_name ++ "\x27 value \x27" ++
            param_value.render ++ "\x27 not in allowed values: " ++
            pyRenderList (param_config.enum.getD [])))
        else checkProvidedParameters template_parameters command_id rest

/-- `validate_command` (lines 205-242).  The first loop returns on the first
required-but-missing template parameter; the second loop checks each provided
parameter in order. -/
def ConfigurationManager.validate_command (mgr : ConfigurationManager)
    (command_id : String) (parameters : List (String × PyVal)) :
    Except PyErr (Bool × Option String) :=
  match mgr.get_command_template command_id with
  | .error (.keyError _) =>
    .ok (false, some ("Command \x27" ++ command_id ++ "\x27 not found in registered templates"))
  | .error e => .error e
  | .ok template =>
    match template.parameters.find?
        (fun kv => kv.2.required && (dictLookup parameters kv.1).isNone) with
    | some kv =>
      .ok (false, some ("Required parameter \x27" ++ kv.1 ++ "\x27 is missing"))
    | Option.none =>
      .ok (checkProvidedParameters template.parameters command_id parameters)

/-! ### Pydantic model validation for registration

`register_device_configuration` validates raw dict payloads through
`TelemetryTypeConfig(**config)` and `CommandTemplate(**template)`.  Pydantic
itself is library code not under src/; the parsers below model its generic
model validation against the field declarations in `models/configuration.py`:
a required field must be present with the declared type, optional fields
default to `None`, and a wrong-typed field raises a validation error. -/

/-- Coercion of the raw `data_type` value into the `DataType` str-enum. -/
def parseDataType : PyVal → Option DataType
  | .str s =>
    if s == "int" then some .int
    else if s == "float" then some .float
    else if s == "string" then some .string
    else if s == "boolean" then some .boolean
    else if s == "array" then some .array
    else if s == "object" then some .object
    else Option.none
  | _ => Option.none

/-- An `Optional[str]` field: absent or `None` gives the default, a string
validates, anything else is a validation error. -/
def parseOptStr : Option PyVal → Option (Option String)
  | Option.none => some Option.none
  | some PyVal.none => some Option.none
  | some (PyVal.str s) => some (some s)
  | some _ => Option.none

/-- Entries of an `Optional[Dict[str, Union[int, float]]]` range dict: every
value must be numeric. -/
def parseRangeEntries : List (String × PyVal) → Option (List (String × ℚ))
  | [] => some []
  | (k, v) :: rest =>
    match v.toNumOpt with
    | some q => (parseRangeEntries rest).map (fun r => (k, q) :: r)
    | Option.none => Option.none

/-- The `range` field of `TelemetryTypeConfig`. -/
def parseRangeField : Option PyVal → Option (Option (List (String × ℚ)))
  | Option.none => some Option.none
  | some PyVal.none => some Option.none
  | some (PyVal.dict xs) => (parseRangeEntries xs).map some
  | some _ => Option.none

/-- Scalar values acceptable in an `Optional[List[Union[str, int, float]]]`
enum field. -/
def isScalar : PyVal → Bool
  | .str _ => true
  | .int _ => true
  | .float _ => true
  | .bool _ => true
  | _ => false

/-- The `enum` field of `TelemetryTypeConfig` / `CommandParameter`. -/
def parseEnumField : Option PyVal → Option (Option (List PyVal))
  | Option.none => some Option.none
  | some PyVal.none => some Option.none
  | some (PyVal.list xs) => if xs.all isScalar then some (some xs) else Option.none
  | some _ => Option.none

/-- The `required` field of `CommandParameter` (default `True`). -/
def parseRequiredField : Option PyVal → Option Bool
  | Option.none => some true
  | some (PyVal.bool b) => some b
  | some _ => Option.none

/-- `TelemetryTypeConfig(**config)`: `data_type` and `description` are
required; `unit`, `range`, `enum` are optional. -/
def parseTelemetryTypeConfig (d : List (String × PyVal)) : Option TelemetryTypeConfig :=
  match (dictLookup d ("data_type")).bind parseDataType,
        dictLookup d ("description"),
        parseOptStr (dictLookup d ("unit")),
        parseRangeField (dictLookup d ("range")),
        parseEnumField (dictLookup d ("enum")) with
  | some dt, some (PyVal.str desc), some u, some r, some e =>
    some { unit := u, data_type := dt, range := r, description := desc, enum := e }
  | _, _, _, _, _ => Option.none

/-- `CommandParameter(**param)`: `type` (a string) is required; `required`
defaults to `True`; `enum` and `description` are optional. -/
def parseCommandParameter (d : List (String × PyVal)) : Option CommandParameter :=
  match dictLookup d ("type"),
        parseRequiredField (dictLookup d ("required")),
        parseEnumField (dictLookup d ("enum")),
        parseOptStr (dictLookup d ("description")) with
  | some (PyVal.str t), some req, some e, some desc =>
    some { type := t, required := req, enum := e, description := desc }
  | _, _, _, _ => Option.none

/-- A dict comprehension `{key: Model(**cfg) for key, cfg in items}`: validates
every entry, the whole comprehension failing on any invalid one. -/
def parseEntries {α β : Type} (f : α → Option β) :
    List (String × α) → Option (List (String × β))
  | [] => some []
  | (k, v) :: rest =>
    match f v with
    | some b =>
      match parseEntries f rest with
      | some bs => some ((k, b) :: bs)
      | Option.none => Option.none
    | Option.none => Option.none

/-- `CommandTemplate(**template)`: `command`, `parameters` (a dict of parameter
dicts) and `description` are required. -/
def parseCommandTemplate (d : List (String × PyVal)) : Option CommandTemplate :=
  match dictLookup d ("command"),
        dictLookup d ("parameters"),
        dictLookup d ("description") with
  | some (PyVal.str c), some (PyVal.dict ps), some (PyVal.str desc) =>
    match parseEntries
        (fun v => match v with
          | PyVal.dict fields => parseCommandParameter fields
          | _ => Option.none) ps with
    | some params => some { command := c, parameters := params, description := desc }
    | Option.none => Option.none
  | _, _, _ => Option.none

/-- `register_device_configuration` (lines 30-71): inside a `try`, builds the
validated models from both raw dicts; only after both comprehensions succeed
does it assign the new state, set `device_connected` and refresh
`last_updated`.  Any validation error is caught and reported as `False` with
the prior state untouched.  `datetime.now()` is passed in as `now`; the
`device_id` argument only feeds logging and is omitted. -/
def ConfigurationManager.register_device_configuration (mgr : ConfigurationManager)
    (telemetry_types : List (String × List (String × PyVal)))
    (command_templates : List (String × List (String × PyVal)))
    (now : Int) : ConfigurationManager × Bool :=
  match parseEntries parseTelemetryTypeConfig telemetry_types,
        parseEntries parseCommandTemplate command_templates with
  | some vtt, some vct =>
    ({ telemetry_types := vtt, command_templates := vct,
       last_updated := now, device_connected := true }, true)
  | _, _ => (mgr, false)

/-- `unregister_device` (lines 73-85): clears both mappings and the connected
flag. -/
def ConfigurationManager.unregister_device (_mgr : ConfigurationManager)
    (now : Int) : ConfigurationManager :=
  { telemetry_types := [], command_templates := [],
    last_updated := now, device_connected := false }

/-! ## models/telemetry.py and models/commands.py -/

/-- `CommandStatus`: status of command execution. -/
inductive CommandStatus : Type
  | success | error | pending
deriving DecidableEq

/-- `CommandResult`: result of command execution. -/
structure CommandResult : Type where
  command : String
  status : CommandStatus
  message : String
  details : Option (List (String × PyVal)) := Option.none

/-- `GenericMessage`: the discriminated union of message types
(`TelemetryMessage` has `type="data"`, `CommandMessage` has `type="command"`
and no `id` attribute, `CommandResultMessage` has `type="command_result"`,
`DeviceMessage` has `type="device_message"`).  Timestamps are modelled as
integers. -/
inductive GenericMessage : Type
  | data (id : String) (value : PyVal) (timestamp : Int)
  | command (command : String) (parameters : List (String × PyVal)) (timestamp : Int)
  | command_result (id : String) (value : CommandResult) (timestamp : Int)
  | device_message (id : String) (value : List (String × PyVal)) (timestamp : Int)

/-- The `type` discriminator of a message (`msg.root.type`). -/
def GenericMessage.typeTag : GenericMessage → String
  | .data _ _ _ => "data"
  | .command _ _ _ => "command"
  | .command_result _ _ _ => "command_result"
  | .device_message _ _ _ => "device_message"

/-- `getattr(msg.root, "id", None)`: the `command` variant carries no `id`
attribute (`hasattr` is false for it). -/
def GenericMessage.idOpt : GenericMessage → Option String
  | .data i _ _ => some i
  | .command _ _ _ => Option.none
  | .command_result i _ _ => some i
  | .device_message i _ _ => some i

/-- `msg.root.timestamp`. -/
def GenericMessage.timestamp : GenericMessage → Int
  | .data _ _ t => t
  | .command _ _ t => t
  | .command_result _ _ t => t
  | .device_message _ _ t => t

/-! ## services/websocket_manager.py -/

/-- The mutable state of `WebSocketManager`, generic over the connection
handle type. -/
structure WebSocketManager (Conn : Type) : Type where
  active_connections : List Conn
  message_history : List GenericMessage
  max_history_size : Nat

/-- `_add_to_history` (lines 122-131) on the history list: append, then drop
the oldest `excess` messages whenever the length exceeds the capacity. -/
def addToHistory (cap : Nat) (hist : List GenericMessage)
    (message : GenericMessage) : List GenericMessage :=
  let h := hist ++ [message]
  if h.length > cap then
    let excess := h.length - cap
    h.drop excess
  else h

/-- `_add_to_history` as the state-level method. -/
def WebSocketManager.add_to_history {Conn : Type} (ws : WebSocketManager Conn)
    (message : GenericMessage) : WebSocketManager Conn :=
  { ws with message_history := addToHistory ws.max_history_size ws.message_history message }

/-- `disconnect` (lines 36-40): removes the connection if present (idempotent;
`list.remove` deletes the first occurrence). -/
def WebSocketManager.disconnect {Conn : Type} [DecidableEq Conn]
    (ws : WebSocketManager Conn) (websocket : Conn) : WebSocketManager Conn :=
  if websocket ∈ ws.active_connections then
    { ws with active_connections := ws.active_connections.erase websocket }
  else ws

/-- The delivery loop of `broadcast_message` (lines 63-69): attempts
`send_text` on every connection in order; `sendFails c = true` models the
per-connection `except` branch firing for `c`.  Returns the connections that
received the message and the `disconnected` list collected by the loop, both
in iteration order. -/
def broadcastLoop {Conn : Type} (sendFails : Conn → Bool) :
    List Conn → List Conn × List Conn
  | [] => ([], [])
  | c :: rest =>
    let r := broadcastLoop sendFails rest
    if sendFails c then (r.1, c :: r.2) else (c :: r.1, r.2)

/-- `broadcast_message` (lines 50-73): stores the message in history, then (if
there are active connections) attempts delivery to each one, catching
per-connection failures, and finally disconnects the failed connections.
Also returns the list of observers the message was delivered to. -/
def WebSocketManager.broadcast_message {Conn : Type} [DecidableEq Conn]
    (sendFails : Conn → Bool) (ws : WebSocketManager Conn)
    (message : GenericMessage) : WebSocketManager Conn × List Conn :=
  let ws1 := ws.add_to_history message
  if ws1.active_connections.isEmpty then (ws1, [])
  else
    let r := broadcastLoop sendFails ws1.active_connections
    let ws2 := r.2.foldl (fun s c => s.disconnect c) ws1
    (ws2, r.1)

/-- `HistoricalDataQuery` (`models/configuration.py`): timestamps are modelled
as already-parsed integers (`datetime.fromisoformat` is boundary work; an empty
timestamp string is falsy and maps to `Option.none`). -/
structure HistoricalDataQuery : Type where
  id : Option String := Option.none
  type : Option String := Option.none
  limit : Option Int := some 1000
  from_timestamp : Option Int := Option.none
  to_timestamp : Option Int := Option.none

/-- `HistoricalDataResponse`. -/
structure HistoricalDataResponse : Type where
  data : List GenericMessage
  total_records : Nat
  filtered_records : Nat

/-- Python list slicing `l[k:]` for an arbitrary integer start index. -/
def pyListSliceFrom {α : Type} (k : Int) (l : List α) : List α :=
  if 0 ≤ k then l.drop k.toNat else l.drop (l.length - (-k).toNat)

/-- The `if query:` filter block of `get_historical_data` (lines 146-166):
applies the type / id / from / to filters in order, each guarded by Python
truthiness (`None` and the empty string skip a filter).  The `limit` field is
not consulted here. -/
def applyQueryFilters (q : HistoricalDataQuery) (hist : List GenericMessage) :
    List GenericMessage :=
  let f1 :=
    match q.type with
    | some t => if !(t == "") then hist.filter (fun m => m.typeTag == t) else hist
    | Option.none => hist
  let f2 :=
    match q.id with
    | some i => if !(i == "") then f1.filter (fun m => m.idOpt == some i) else f1
    | Option.none => f1
  let f3 :=
    match q.from_timestamp with
    | some fromDt => f2.filter (fun m => fromDt < m.timestamp)
    | Option.none => f2
  match q.to_timestamp with
  | some toDt => f3.filter (fun m => m.timestamp < toDt)
  | Option.none => f3

/-- `get_historical_data` (lines 133-176): copies the history, applies the
filter block, then applies the limit slice `filtered_messages[-query.limit:]`
— guarded by `if query and query.limit:`, so a `None` or `0` limit skips the
slice. -/
def WebSocketManager.get_historical_data {Conn : Type} (ws : WebSocketManager Conn)
    (query : Option HistoricalDataQuery) : HistoricalDataResponse :=
  let filtered :=
    match query with
    | Option.none => ws.message_history
    | some q => applyQueryFilters q ws.message_history
  let limited :=
    match query with
    | some q =>
      match q.limit with
      | some l => if !(l == 0) then pyListSliceFrom (-l) filtered else filtered
      | Option.none => filtered
    | Option.none => filtered
  { data := limited,
    total_records := ws.message_history.length,
    filtered_records := limited.length }

/-! ## services/simulator.py -/

/-- The mutable `value` slots of the simulator's sensor table (the `min`,
`max`, `drift`, `unit` and `options` entries are never mutated and are
modelled as the constants below). -/
structure SimSensors : Type where
  temperature : ℚ
  pressure : ℚ
  humidity : ℚ
  system_status : String

/-- `min` bounds from the sensor table in `__init__`. -/
def sensorMin : String → ℚ
  | "temperature" => 18
  | "pressure" => 980
  | "humidity" => 20
  | _ => 0

/-- `max` bounds from the sensor table in `__init__`. -/
def sensorMax : String → ℚ
  | "temperature" => 35
  | "pressure" => 1050
  | "humidity" => 80
  | _ => 0

/-- The `options` list of the `system_status` sensor. -/
def statusOptions : List PyVal :=
  [PyVal.str ("operational"), PyVal.str ("warning"), PyVal.str ("error"),
   PyVal.str ("maintenance")]

/-- Write one numeric sensor's `value` slot by sensor id. -/
def SimSensors.setValue (s : SimSensors) (sid : String) (q : ℚ) : SimSensors :=
  if sid == "temperature" then { s with temperature := q }
  else if sid == "pressure" then { s with pressure := q }
  else if sid == "humidity" then { s with humidity := q }
  else s

/-- The mutable state of `TelemetrySimulator` relevant to command handling. -/
structure TelemetrySimulator : Type where
  is_running : Bool
  update_interval : ℚ
  sensors : SimSensors

/-- A command as dispatched to the simulator: name plus parameter dict (the
runtime shape of the payloads built from `CommandMessage`). -/
structure Command : Type where
  command : String
  parameters : List (String × PyVal)

/-- Python `str()` as used in f-strings: strings interpolate bare, other
values as their rendering. -/
def PyVal.pyStr : PyVal → String
  | .str s => s
  | v => v.render

/-- Python `str(e)` of an exception. -/
def pyErrStr : PyErr → String
  | .keyError m => "\x27" ++ m ++ "\x27"
  | .typeError m => m
  | .valueError m => m

/-- Value of a digit string. -/
def digitsVal (cs : List Char) : Option Nat :=
  if cs.isEmpty then Option.none
  else cs.foldl (fun acc c =>
    match acc with
    | some n => if c.isDigit then some (n * 10 + (c.toNat - 48)) else Option.none
    | Option.none => Option.none) (some 0)

/-- Python `float(s)` on simple decimal literals: optional sign, integer part,
optional fractional part.  (Python also accepts exponents, `inf` / `nan` and
surrounding whitespace; no claim exercises those shapes.) -/
def parseDecimal (s : String) : Option ℚ :=
  let cs := s.toList
  let signed : ℚ × List Char :=
    match cs with
    | '-' :: rest => (-1, rest)
    | '+' :: rest => (1, rest)
    | _ => (1, cs)
  match (signed.2.splitOn '.') with
  | [intPart] =>
    (digitsVal intPart).map (fun n => signed.1 * (n : ℚ))
  | [intPart, fracPart] =>
    match digitsVal intPart, digitsVal fracPart with
    | some n, some f =>
      some (signed.1 * ((n : ℚ) + (f : ℚ) / ((10 : ℚ) ^ fracPart.length)))
    | _, _ => Option.none
  | _ => Option.none

/-- Python `float(value)`: numbers and booleans convert; strings parse as
decimals (`ValueError` on failure); other shapes raise `TypeError`. -/
def pyFloat : PyVal → Except PyErr ℚ
  | .int n => .ok ((n : ℚ))
  | .float q => .ok q
  | .bool b => .ok (if b then 1 else 0)
  | .str s =>
    match parseDecimal s with
    | some q => .ok q
    | Option.none => .error (.valueError ("could not convert string to float"))
  | _ => .error (.typeError ("float() argument must be a string or a real number"))

/-- Python `<=` between values: raises `TypeError` unless both operands are
numbers. -/
def pyLe (a b : PyVal) : Except PyErr Bool :=
  match a.toNumOpt, b.toNumOpt with
  | some x, some y => .ok (x ≤ y)
  | _, _ => .error (.typeError ("unsupported operand type for comparison"))

/-- `CommandResultMessage(value=result)` wrapped in `GenericMessage`, with the
default `id="command_result"` and a fresh timestamp. -/
def commandResultMessage (result : CommandResult) (now : Int) : GenericMessage :=
  GenericMessage.command_result ("command_result") result now

/-- `_handle_calibration_command` (lines 406-422): synchronously broadcasts a
`pending` result, then spawns `_perform_calibration(order)` as an independent
background task.  Returns the broadcast messages and the spawned tasks. -/
def handle_calibration_command (order : Command) (now : Int) :
    List GenericMessage × List Command :=
  ([commandResultMessage
      { command := order.command, status := .pending,
        message := "Calibration started, this will take a few seconds..." } now],
   [order])

/-- `_execute_command` (lines 283-403): dispatches on the command name through
the if/elif chain.  Returns the mutated simulator, the synchronous
`CommandResult` (`None` for the asynchronous calibration path), the messages
broadcast during execution itself, and the background tasks spawned.  `now`
stands for `datetime.now()`.  A raised exception (the `TypeError` from the
chained comparison on a non-numeric interval) propagates to `handle_command`;
no branch mutates state before raising, so the pre-call state accompanies the
error. -/
def TelemetrySimulator.execute_command (sim : TelemetrySimulator) (order : Command)
    (now : Int) :
    Except PyErr (TelemetrySimulator × Option CommandResult × List GenericMessage × List Command) :=
  if order.command == "set_update_interval" then do
    let new_interval := dictGet order.parameters ("interval") (PyVal.float 2)
    -- `if 0.1 <= new_interval <= 60.0:` (chained comparison, short-circuit)
    let b1 ← pyLe (PyVal.float (0.1 : ℚ)) new_interval
    let ok ← if b1 then pyLe new_interval (PyVal.float 60) else Except.ok false
    if ok then
      .ok ({ sim with update_interval := new_interval.toNum },
        some { command := order.command, status := .success,
               message := "Update interval set to " ++ new_interval.pyStr ++ " seconds" },
        [], [])
    else
      .ok (sim,
        some { command := order.command, status := .error,
               message := "Interval must be between 0.1 and 60.0 seconds" },
        [], [])
  else if order.command == "reset_sensors" then
    .ok ({ sim with sensors :=
        { temperature := (22.5 : ℚ), pressure := (1013.25 : ℚ), humidity := 45,
          system_status := "operational" } },
      some { command := order.command, status := .success,
             message := "All sensors reset to default values" },
      [], [])
  else if order.command == "set_sensor_value" then
    let sensor_id := dictGet order.parameters ("sensor_id") PyVal.none
    let value := dictGet order.parameters ("value") PyVal.none
    -- `if sensor_id in self.sensors:` (key membership in the sensor table)
    if pyIn sensor_id [PyVal.str ("temperature"), PyVal.str ("pressure"),
        PyVal.str ("humidity"), PyVal.str ("system_status")] then
      if pyEq sensor_id (PyVal.str ("system_status")) then
        if pyIn value statusOptions then
          -- here `value` equals one of the four option strings, so it is a string
          let s := match value with | PyVal.str s => s | _ => ""
          .ok ({ sim with sensors := { sim.sensors with system_status := s } },
            some { command := order.command, status := .success,
                   message := "Sensor " ++ sensor_id.pyStr ++ " set to " ++ value.pyStr },
            [], [])
        else
          .ok (sim,
            some { command := order.command, status := .error,
                   message := "Invalid value for " ++ sensor_id.pyStr ++
                     ". Valid options: " ++ pyRenderList statusOptions },
            [], [])
      else
        match value with
        | PyVal.none =>
          .ok (sim,
            some { command := order.command, status := .error,
                   message := "Value parameter is required" },
            [], [])
        | _ =>
          match pyFloat value with
          | .error _ =>
            -- `except (ValueError, TypeError)` around the conversion
            .ok (sim,
              some { command := order.command, status := .error,
                     message := "Invalid numeric value" },
              [], [])
          | .ok numeric_value =>
            -- here `sensor_id` equals one of the sensor key strings
            let sid := match sensor_id with | PyVal.str s => s | _ => ""
            if sensorMin sid ≤ numeric_value ∧ numeric_value ≤ sensorMax sid then
              .ok ({ sim with sensors := sim.sensors.setValue sid numeric_value },
                some { command := order.command, status := .success,
                       message := "Sensor " ++ sensor_id.pyStr ++ " set to " ++
                         toString numeric_value },
                [], [])
            else
              .ok (sim,
                some { command := order.command, status := .error,
                       message := "Value must be between " ++ toString (sensorMin sid) ++
                         " and " ++ toString (sensorMax sid) },
                [], [])
    else
      .ok (sim,
        some { command := order.command, status := .error,
               message := "Unknown sensor: " ++ sensor_id.pyStr },
        [], [])
  else if order.command == "get_status" then
    .ok (sim,
      some { command := order.command, status := .success,
             message := "Simulator status retrieved",
             details := some [("is_running", PyVal.bool sim.is_running),
               ("update_interval", PyVal.float sim.update_interval),
               ("sensor_count", PyVal.int 4),
               ("current_values", PyVal.dict
                 [("temperature", PyVal.float sim.sensors.temperature),
                  ("pressure", PyVal.float sim.sensors.pressure),
                  ("humidity", PyVal.float sim.sensors.humidity),
                  ("system_status", PyVal.str sim.sensors.system_status)])] },
      [], [])
  else if order.command == "calibrate_sensors" then
    let r := handle_calibration_command order now
    .ok (sim, Option.none, r.1, r.2)
  else
    .ok (sim,
      some { command := order.command, status := .error,
             message := "Unknown command: " ++ order.command },
      [], [])

/-- `handle_command` (lines 249-281): runs `_execute_command` under a `try`; a
non-None result is wrapped in a `CommandResultMessage` and broadcast; an
exception is converted into a broadcast error result.  Returns the mutated
simulator, the broadcast messages in order, and the spawned background
tasks. -/
def TelemetrySimulator.handle_command (sim : TelemetrySimulator) (order : Command)
    (now : Int) : TelemetrySimulator × List GenericMessage × List Command :=
  match sim.execute_command order now with
  | .ok (sim2, some result, msgs, tasks) =>
    (sim2, msgs ++ [commandResultMessage result now], tasks)
  | .ok (sim2, Option.none, msgs, tasks) => (sim2, msgs, tasks)
  | .error e =>
    (sim, [commandResultMessage
      { command := order.command, status := .error,
        message := "Command execution failed: " ++ pyErrStr e } now], [])

/-- `_perform_calibration` (lines 424-464): reads the requested duration
(default 5.0), clamps it with `max(1.0, min(30.0, duration))` — where `min`
raises `TypeError` on a non-numeric duration, caught by the surrounding
`except` which broadcasts an error result without touching the sensors —
then sleeps, resets the sensors to the calibrated values and broadcasts the
success result with its `details`.  Returns the mutated simulator and the
single broadcast message. -/
def TelemetrySimulator.perform_calibration (sim : TelemetrySimulator) (order : Command)
    (now : Int) : TelemetrySimulator × GenericMessage :=
  let duration := dictGet order.parameters ("duration") (PyVal.float 5)
  match duration.toNumOpt with
  | Option.none =>
    (sim, commandResultMessage
      { command := order.command, status := .error,
        message := "Calibration failed: " ++
          pyErrStr (.typeError ("unsupported operand type for comparison")) } now)
  | some d =>
    let calibration_duration := max (1 : ℚ) (min 30 d)
    ({ sim with sensors :=
        { temperature := 22, pressure := 1013, humidity := 50,
          system_status := "operational" } },
     commandResultMessage
       { command := order.command, status := .success,
         message := "Sensor calibration completed in " ++
           toString calibration_duration ++ " seconds",
         details := some [("calibrated_sensors",
             PyVal.list [PyVal.str ("temperature"), PyVal.str ("pressure"),
               PyVal.str ("humidity"), PyVal.str ("system_status")]),
           ("duration", PyVal.float calibration_duration)] } now)

/-! ## Claim-side definitions

Definitions written from the words of the (amended) claims, to be compared
with the source-embedded functions above. -/

/-- Exact kind predicate: the value is an int literal. -/
def PyVal.isIntKind : PyVal → Bool
  | .int _ => true
  | _ => false

/-- Exact kind predicate: the value is a float literal. -/
def PyVal.isFloatKind : PyVal → Bool
  | .float _ => true
  | _ => false

/-- Exact kind predicate: the value is a string literal. -/
def PyVal.isStrKind : PyVal → Bool
  | .str _ => true
  | _ => false

/-- Exact kind predicate: the value is a boolean literal. -/
def PyVal.isBoolKind : PyVal → Bool
  | .bool _ => true
  | _ => false

/-- C5 type stage, as the amended claim words it: float accepts int and bool,
int accepts bool, string and boolean require exact kind match, and array /
object perform no type check at all.  Failure carries the code's reason
string. -/
def specTypeCheck : DataType → PyVal → Option String
  | .float, v =>
    if v.isFloatKind || v.isIntKind || v.isBoolKind then Option.none
    else some ("Value must be a float or int")
  | .int, v =>
    if v.isIntKind || v.isBoolKind then Option.none
    else some ("Value must be an int")
  | .string, v =>
    if v.isStrKind then Option.none
    else some ("Value must be a string")
  | .boolean, v =>
    if v.isBoolKind then Option.none
    else some ("Value must be a boolean")
  | .array, _ => Option.none
  | .object, _ => Option.none

/-- C5 range stage on the original (un-coerced) value: when a non-empty range
is declared and the value is numeric, the value must be `>= min` and `<= max`
for whichever bounds are declared, the lower bound checked first. -/
def specRangeCheck (config : TelemetryTypeConfig) (v : PyVal) : Option String :=
  match config.range with
  | Option.none => Option.none
  | some r =>
    if !r.isEmpty && v.isinstance_int_or_float then
      let maxCheck : Option String :=
        match dictLookup r ("max") with
        | some max_val =>
          if max_val < v.toNum then
            some ("Value must be less than or equal to " ++ toString max_val)
          else Option.none
        | Option.none => Option.none
      match dictLookup r ("min") with
      | some min_val =>
        if v.toNum < min_val then
          some ("Value must be greater than or equal to " ++ toString min_val)
        else maxCheck
      | Option.none => maxCheck
    else Option.none

/-- C5 enum stage on the original (un-coerced) value: when a non-empty enum is
declared, the value must equal one of its literals. -/
def specEnumCheck (config : TelemetryTypeConfig) (v : PyVal) : Option String :=
  match config.enum with
  | some es =>
    if !es.isEmpty && !pyIn v es then
      some ("Value must be one of " ++ pyRenderList es)
    else Option.none
  | Option.none => Option.none

/-- First failing check wins: the first reason in the staged list, or ok. -/
def firstFailure (checks : List (Option String)) : Bool × Option String :=
  match checks.findSome? id with
  | some msg => (false, some msg)
  | Option.none => (true, Option.none)

/-- `validate_telemetry_value` as the amended claim describes it: unknown type
fails with the fixed reason, otherwise the type, range and enum stages run in
order on the original value, the first failing stage determining the
reason. -/
def specValidateValue (mgr : ConfigurationManager) (type_id : String)
    (value : PyVal) : Bool × Option String :=
  match dictLookup mgr.telemetry_types type_id with
  | Option.none => (false, some ("Unknown telemetry type"))
  | some config =>
    firstFailure [specTypeCheck config.data_type value,
                  specRangeCheck config value,
                  specEnumCheck config value]

/-- The last `n` elements of a list, in order. -/
def lastN {α : Type} (n : Nat) (l : List α) : List α :=
  l.drop (l.length - n)

/-! ## Concrete instances used by witnesses and counterexamples -/

/-- The simulator's `set_update_interval` command template (simulator.py lines
160-170). -/
def tmplSetUpdateInterval : CommandTemplate :=
  { command := "set_update_interval",
    parameters := [("interval",
      { type := "float", required := true,
        description := some ("Update interval in seconds (0.1 to 60.0)") })],
    description := "Change the telemetry data update frequency" }

/-- A manager holding only the `set_update_interval` template. -/
def mgrC1 : ConfigurationManager :=
  { telemetry_types := [],
    command_templates := [("set_update_interval", tmplSetUpdateInterval)],
    last_updated := 0, device_connected := true }

/-- An empty manager state. -/
def mgrEmpty : ConfigurationManager :=
  { telemetry_types := [], command_templates := [],
    last_updated := 0, device_connected := false }

/-- A raw telemetry-type payload whose single entry is malformed (missing the
required `data_type` and `description` fields). -/
def badTT : List (String × List (String × PyVal)) := [("bad", [])]

/-- A well-formed raw telemetry-type payload. -/
def goodTT : List (String × List (String × PyVal)) :=
  [("temperature", [("data_type", PyVal.str ("float")),
    ("description", PyVal.str ("temp"))])]

/-- A well-formed raw command-template payload. -/
def goodCT : List (String × List (String × PyVal)) :=
  [("ping", [("command", PyVal.str ("ping")), ("parameters", PyVal.dict []),
    ("description", PyVal.str ("p"))])]

/-- Sample telemetry messages. -/
def msgA : GenericMessage := .data ("temperature") (PyVal.float 21) 1

/-- Sample telemetry messages. -/
def msgB : GenericMessage := .data ("pressure") (PyVal.float 1000) 2

/-- Sample telemetry messages. -/
def msgC : GenericMessage := .data ("humidity") (PyVal.float 50) 3

/-- A websocket manager state with one stored message and no connections. -/
def wsC4 : WebSocketManager Nat :=
  { active_connections := [], message_history := [msgA], max_history_size := 10000 }

/-- A query that explicitly sets `limit = 0`. -/
def qLimit0 : HistoricalDataQuery := { limit := some 0 }

/-- A websocket manager state with three stored messages. -/
def wsC4b : WebSocketManager Nat :=
  { active_connections := [], message_history := [msgA, msgB, msgC],
    max_history_size := 10000 }

/-- A query that sets `limit = 2` and no filters. -/
def qLimit2 : HistoricalDataQuery := { limit := some 2 }

/-- A telemetry type declared as `int`. -/
def cfgIntFlag : TelemetryTypeConfig := { data_type := .int, description := "f" }

/-- A manager holding only the `int` telemetry type `flag`. -/
def mgrC5 : ConfigurationManager :=
  { telemetry_types := [("flag", cfgIntFlag)], command_templates := [],
    last_updated := 0, device_connected := true }

/-- A telemetry type declared as `array`, with no range or enum. -/
def cfgArr : TelemetryTypeConfig := { data_type := .array, description := "arr" }

/-- A manager holding only the `array` telemetry type `points`. -/
def mgrC10 : ConfigurationManager :=
  { telemetry_types := [("points", cfgArr)], command_templates := [],
    last_updated := 0, device_connected := true }

/-- The sensor values after the simulator's `__init__`. -/
def simSensorsDefault : SimSensors :=
  { temperature := (22.5 : ℚ), pressure := (1013.25 : ℚ), humidity := 45,
    system_status := "operational" }

/-- The simulator state after `__init__`. -/
def simDefault : TelemetrySimulator :=
  { is_running := true, update_interval := 2, sensors := simSensorsDefault }

/-! ## Helper lemmas -/

theorem addToHistory_eq_drop (cap : Nat) (hist : List GenericMessage)
    (m : GenericMessage) :
    addToHistory cap hist m = (hist ++ [m]).drop (hist.length + 1 - cap) := by
  simp only [addToHistory, List.length_append, List.length_singleton]
  split
  · rfl
  · next hle =>
    have h0 : hist.length + 1 - cap = 0 := by omega
    rw [h0, List.drop_zero]

theorem foldl_addToHistory (cap : Nat) (ms : List GenericMessage) :
    ∀ hist : List GenericMessage, hist.length ≤ cap →
      ms.foldl (addToHistory cap) hist
        = (hist ++ ms).drop (hist.length + ms.length - cap) := by
  induction ms with
  | nil =>
    intro hist h
    have h0 : hist.length - cap = 0 := by omega
    simp [h0]
  | cons m rest ih =>
    intro hist h
    rw [List.foldl_cons]
    have hstep := addToHistory_eq_drop cap hist m
    have hlen : (addToHistory cap hist m).length ≤ cap := by
      rw [hstep]
      simp only [List.length_drop, List.length_append, List.length_singleton]
      omega
    have hd : hist.length + 1 - cap ≤ (hist ++ [m]).length := by
      simp only [List.length_append, List.length_singleton]
      omega
    rw [ih _ hlen, hstep, ← List.drop_append_of_le_length hd, List.drop_drop]
    congr 1
    · simp only [List.length_drop, List.length_append, List.length_singleton,
        List.length_cons, List.length_nil]
      omega
    · simp

theorem isinstance_int_or_float_eq_kinds (v : PyVal) :
    v.isinstance_int_or_float = (v.isFloatKind || v.isIntKind || v.isBoolKind) := by
  cases v <;> rfl

theorem isinstance_int_eq_kinds (v : PyVal) :
    v.isinstance_int = (v.isIntKind || v.isBoolKind) := by
  cases v <;> rfl

theorem isinstance_str_eq_kind (v : PyVal) : v.isinstance_str = v.isStrKind := by
  cases v <;> rfl

theorem isinstance_bool_eq_kind (v : PyVal) : v.isinstance_bool = v.isBoolKind := by
  cases v <;> rfl

theorem pyEq_float_coerce (v : PyVal) (h : v.isinstance_int_or_float = true)
    (e : PyVal) : pyEq (PyVal.float v.toNum) e = pyEq v e := by
  cases v <;> cases e <;>
    first
      | rfl
      | simp [PyVal.isinstance_int_or_float, PyVal.isinstance_int] at h

theorem pyIn_float_coerce (v : PyVal) (h : v.isinstance_int_or_float = true)
    (es : List PyVal) : pyIn (PyVal.float v.toNum) es = pyIn v es := by
  induction es with
  | nil => rfl
  | cons e rest ih =>
    simp only [pyIn, List.any_cons] at ih ⊢
    rw [pyEq_float_coerce v h e, ih]

theorem rangeEnumStages_float_coerce (config : TelemetryTypeConfig) (v : PyVal)
    (h : v.isinstance_int_or_float = true) :
    rangeEnumStages config (PyVal.float v.toNum) = rangeEnumStages config v := by
  have h1 : (PyVal.float v.toNum).isinstance_int_or_float = true := rfl
  have h2 : (PyVal.float v.toNum).toNum = v.toNum := rfl
  simp only [rangeEnumStages, h1, h2, h, pyIn_float_coerce v h]

theorem rangeEnumStages_eq_stages (config : TelemetryTypeConfig) (w : PyVal) :
    rangeEnumStages config w
      = firstFailure [Option.none, specRangeCheck config w, specEnumCheck config w] := by
  unfold rangeEnumStages specRangeCheck specEnumCheck firstFailure
  simp only [List.findSome?_cons, List.findSome?_nil, id_eq]
  repeat' split
  all_goals simp_all

theorem validate_value_eq_spec (mgr : ConfigurationManager) (type_id : String)
    (value : PyVal) :
    mgr.validate_telemetry_value type_id value
      = .ok (specValidateValue mgr type_id value) := by
  unfold ConfigurationManager.validate_telemetry_value
    ConfigurationManager.get_telemetry_type specValidateValue
  cases hlk : dictLookup mgr.telemetry_types type_id with
  | none => rfl
  | some config =>
    dsimp only
    cases hdt : config.data_type
    case float =>
      by_cases hv : value.isinstance_int_or_float = true
      · have ht : specTypeCheck DataType.float value = Option.none := by
          rw [isinstance_int_or_float_eq_kinds] at hv
          simp [specTypeCheck, hv]
        simp [DataType.value, hv, ht, rangeEnumStages_float_coerce config value hv,
          rangeEnumStages_eq_stages]
      · have hv2 : value.isinstance_int_or_float = false := by simpa using hv
        have ht : specTypeCheck DataType.float value
            = some ("Value must be a float or int") := by
          rw [isinstance_int_or_float_eq_kinds] at hv2
          simp [specTypeCheck, hv2]
        simp [DataType.value, hv2, ht, firstFailure, List.findSome?_cons]
    case int =>
      by_cases hv : value.isinstance_int = true
      · have ht : specTypeCheck DataType.int value = Option.none := by
          rw [isinstance_int_eq_kinds] at hv
          simp [specTypeCheck, hv]
        simp [DataType.value, hv, ht, rangeEnumStages_eq_stages]
      · have hv2 : value.isinstance_int = false := by simpa using hv
        have ht : specTypeCheck DataType.int value
            = some ("Value must be an int") := by
          rw [isinstance_int_eq_kinds] at hv2
          simp [specTypeCheck, hv2]
        simp [DataType.value, hv2, ht, firstFailure, List.findSome?_cons]
    case string =>
      by_cases hv : value.isinstance_str = true
      · have ht : specTypeCheck DataType.string value = Option.none := by
          rw [isinstance_str_eq_kind] at hv
          simp [specTypeCheck, hv]
        simp [DataType.value, hv, ht, rangeEnumStages_eq_stages]
      · have hv2 : value.isinstance_str = false := by simpa using hv
        have ht : specTypeCheck DataType.string value
            = some ("Value must be a string") := by
          rw [isinstance_str_eq_kind] at hv2
          simp [specTypeCheck, hv2]
        simp [DataType.value, hv2, ht, firstFailure, List.findSome?_cons]
    case boolean =>
      by_cases hv : value.isinstance_bool = true
      · have ht : specTypeCheck DataType.boolean value = Option.none := by
          rw [isinstance_bool_eq_kind] at hv
          simp [specTypeCheck, hv]
        simp [DataType.value, hv, ht, rangeEnumStages_eq_stages]
      · have hv2 : value.isinstance_bool = false := by simpa using hv
        have ht : specTypeCheck DataType.boolean value
            = some ("Value must be a boolean") := by
          rw [isinstance_bool_eq_kind] at hv2
          simp [specTypeCheck, hv2]
        simp [DataType.value, hv2, ht, firstFailure, List.findSome?_cons]
    case array =>
      have ht : specTypeCheck DataType.array value = Option.none := rfl
      simp [DataType.value, ht, rangeEnumStages_eq_stages]
    case object =>
      have ht : specTypeCheck DataType.object value = Option.none := rfl
      simp [DataType.value, ht, rangeEnumStages_eq_stages]

/-! ## Claims -/

/-- Claim C1 (code bug): `validate_command` is supposed to reject a provided
parameter whose value does not match the declared primitive type, but the
rejection test `if not self._validate_parameter_type(...)` negates a
(always-truthy) 2-tuple, so the mistyped parameter below passes validation
even though `_validate_parameter_type` itself reports the mismatch. -/
theorem C1_type_mismatch_accepted :
    mgrC1.validate_command ("set_update_interval")
        [("interval", PyVal.str ("fast"))] = .ok (true, Option.none)
      ∧ (validate_parameter_type (PyVal.str ("fast")) ("float")).1 = false :=
  ⟨rfl, rfl⟩

/-- Claim C3: the event log built by `_add_to_history` never exceeds the
configured capacity, and after appending more than `capacity` events it holds
exactly the most recently appended `capacity` events in arrival order (oldest
dropped first). -/
theorem C3_history_capacity (cap : Nat) (ms : List GenericMessage) :
    (ms.foldl (addToHistory cap) []).length ≤ cap
      ∧ (ms.length > cap →
          ms.foldl (addToHistory cap) [] = ms.drop (ms.length - cap)) := by
  have h := foldl_addToHistory cap ms [] (by simp)
  simp only [List.nil_append, List.length_nil, Nat.zero_add] at h
  refine ⟨?_, fun _ => h⟩
  rw [h]
  simp only [List.length_drop]
  omega

/-- Witness for C3: capacity 2, three appends — the log holds the last two
messages. -/
theorem C3_history_capacity_witness :
    ([msgA, msgB, msgC].foldl (addToHistory 2) []).length ≤ 2
      ∧ [msgA, msgB, msgC].foldl (addToHistory 2) [] = [msgB, msgC] := by
  refine ⟨(C3_history_capacity 2 [msgA, msgB, msgC]).1, ?_⟩
  have h := (C3_history_capacity 2 [msgA, msgB, msgC]).2 (by decide)
  simpa using h

/-- Claim C5 counterexample: the boolean `True` is not an int-kind value, yet
`validate_telemetry_value` accepts it for a type declared `int` (Python `bool`
subclasses `int`), contradicting the claim that every data type other than
float requires an exact kind match. -/
theorem C5_counterexample :
    (PyVal.bool true).isIntKind = false
      ∧ mgrC5.validate_telemetry_value ("flag") (PyVal.bool true)
          = .ok (true, Option.none) :=
  ⟨rfl, rfl⟩

/-- Claim C5 (amended): `validate_telemetry_value` equals the staged pipeline
that checks, in order, primitive-type compatibility (float accepts int and
bool, int accepts bool, string and boolean require exact kind match, array and
object perform no type check), then range bounds, then enum membership when a
non-empty enum is declared — the first failing stage determining the reason,
and all stages passing returning ok. -/
theorem C5_validate_value_stage_order (mgr : ConfigurationManager)
    (type_id : String) (value : PyVal) :
    mgr.validate_telemetry_value type_id value
      = .ok (specValidateValue mgr type_id value) :=
  validate_value_eq_spec mgr type_id value

/-- Claim C9 counterexample: for an unregistered type the returned reason is
the fixed string "Unknown telemetry type", not the claimed string
"unknown type". -/
theorem C9_counterexample :
    mgrEmpty.validate_telemetry_value ("temperature") (PyVal.int 0)
        = .ok (false, some ("Unknown telemetry type"))
      ∧ "Unknown telemetry type" ≠ "unknown type" :=
  ⟨rfl, by decide⟩

/-- Claim C9 (amended): `validate_telemetry_value` never raises — the embedded
`try` body's only raise, the `KeyError` of `get_telemetry_type`, is caught —
and for every unregistered type name it returns not-ok with the fixed reason
"Unknown telemetry type". -/
theorem C9_validate_total (mgr : ConfigurationManager) (type_id : String)
    (value : PyVal) :
    (∃ r, mgr.validate_telemetry_value type_id value = Except.ok r)
      ∧ (dictLookup mgr.telemetry_types type_id = Option.none →
          mgr.validate_telemetry_value type_id value
            = .ok (false, some ("Unknown telemetry type"))) := by
  refine ⟨⟨specValidateValue mgr type_id value,
    validate_value_eq_spec mgr type_id value⟩, fun hlk => ?_⟩
  rw [validate_value_eq_spec]
  simp [specValidateValue, hlk]

/-- Witness for C9: an empty registry rejects any lookup with the fixed
reason. -/
theorem C9_validate_total_witness :
    mgrEmpty.validate_telemetry_value ("nope") (PyVal.str ("v"))
      = .ok (false, some ("Unknown telemetry type")) :=
  (C9_validate_total mgrEmpty ("nope") (PyVal.str ("v"))).2 rfl

/-- Claim C10: for a registered type declared `array` or `object`,
`validate_telemetry_value` performs no primitive-type check at all — the
result is exactly that of the range and enum stages alone, and with no range
or enum declared a value of any kind validates ok. -/
theorem C10_array_object_no_type_check (mgr : ConfigurationManager)
    (type_id : String) (value : PyVal) (config : TelemetryTypeConfig)
    (hlk : dictLookup mgr.telemetry_types type_id = some config)
    (hdt : config.data_type = DataType.array ∨ config.data_type = DataType.object) :
    mgr.validate_telemetry_value type_id value = .ok (rangeEnumStages config value)
      ∧ ((config.range = Option.none ∧ config.enum = Option.none) →
          mgr.validate_telemetry_value type_id value = .ok (true, Option.none)) := by
  have hv : mgr.validate_telemetry_value type_id value
      = .ok (rangeEnumStages config value) := by
    unfold ConfigurationManager.validate_telemetry_value
      ConfigurationManager.get_telemetry_type
    rw [hlk]
    dsimp only
    rcases hdt with h | h <;> rw [h] <;> simp [DataType.value]
  refine ⟨hv, fun hre => ?_⟩
  rw [hv]
  rcases hre with ⟨h1, h2⟩
  simp [rangeEnumStages, h1, h2]

/-- Witness for C10: a string value validates ok against an `array`-typed
registration with no range or enum. -/
theorem C10_array_object_no_type_check_witness :
    mgrC10.validate_telemetry_value ("points") (PyVal.str ("scalar"))
      = .ok (true, Option.none) :=
  (C10_array_object_no_type_check mgrC10 ("points") (PyVal.str ("scalar"))
    cfgArr rfl (Or.inl rfl)).2 ⟨rfl, rfl⟩

theorem parseEntries_eq_none {α β : Type} (f : α → Option β)
    (l : List (String × α)) (h : ∃ kv ∈ l, f kv.2 = Option.none) :
    parseEntries f l = Option.none := by
  induction l with
  | nil =>
    rcases h with ⟨kv, hm, _⟩
    cases hm
  | cons a rest ih =>
    obtain ⟨k, v⟩ := a
    rcases h with ⟨kv, hm, hf⟩
    rcases List.mem_cons.mp hm with rfl | hmem
    · simp [parseEntries, hf]
    · unfold parseEntries
      cases hfa : f v
      · rfl
      · rw [ih ⟨kv, hmem, hf⟩]

/-- Claim C2: registration is atomic — any malformed entry in either raw dict
makes the whole call fail with the prior state unchanged, and a fully
well-formed payload replaces both mappings wholesale, sets
`device_connected = true` and refreshes `last_updated`. -/
theorem C2_register_atomicity (mgr : ConfigurationManager)
    (tts cts : List (String × List (String × PyVal))) (now : Int) :
    (((∃ kv ∈ tts, parseTelemetryTypeConfig kv.2 = Option.none)
        ∨ (∃ kv ∈ cts, parseCommandTemplate kv.2 = Option.none)) →
      mgr.register_device_configuration tts cts now = (mgr, false))
    ∧ (∀ vtt vct, parseEntries parseTelemetryTypeConfig tts = some vtt →
        parseEntries parseCommandTemplate cts = some vct →
        mgr.register_device_configuration tts cts now
          = ({ telemetry_types := vtt, command_templates := vct,
               last_updated := now, device_connected := true }, true)) := by
  constructor
  · rintro (h | h)
    · unfold ConfigurationManager.register_device_configuration
      rw [parseEntries_eq_none _ _ h]
    · unfold ConfigurationManager.register_device_configuration
      rw [parseEntries_eq_none _ _ h]
      cases parseEntries parseTelemetryTypeConfig tts <;> rfl
  · intro vtt vct h1 h2
    unfold ConfigurationManager.register_device_configuration
    rw [h1, h2]

/-- Witness for C2: a malformed entry leaves the prior state untouched; a
well-formed payload replaces it wholesale. -/
theorem C2_register_atomicity_witness :
    mgrEmpty.register_device_configuration badTT goodCT 7 = (mgrEmpty, false)
      ∧ mgrEmpty.register_device_configuration goodTT goodCT 7
          = ({ telemetry_types :=
                 [("temperature",
                   { data_type := DataType.float, description := "temp" })],
               command_templates :=
                 [("ping",
                   { command := "ping", parameters := [], description := "p" })],
               last_updated := 7, device_connected := true }, true) := by
  constructor
  · exact (C2_register_atomicity mgrEmpty badTT goodCT 7).1
      (Or.inl ⟨("bad", []), by simp [badTT], rfl⟩)
  · exact (C2_register_atomicity mgrEmpty goodTT goodCT 7).2
      [("temperature", { data_type := DataType.float, description := "temp" })]
      [("ping", { command := "ping", parameters := [], description := "p" })]
      rfl rfl

theorem pyListSliceFrom_neg {α : Type} (L : Int) (hpos : 0 < L) (l : List α) :
    pyListSliceFrom (-L) l = lastN L.toNat l := by
  unfold pyListSliceFrom lastN
  rw [if_neg (by omega), Int.neg_neg]

/-- Claim C4 counterexample: with `limit = 0` explicitly specified the slice
is skipped (Python `if query.limit:` treats 0 as falsy) and the full filtered
set is returned — not the last 0 elements of the unlimited result. -/
theorem C4_counterexample :
    qLimit0.limit = some 0
      ∧ (wsC4.get_historical_data (some qLimit0)).data = [msgA]
      ∧ lastN ((0 : Int)).toNat
          ((wsC4.get_historical_data
            (some { qLimit0 with limit := Option.none })).data) = []
      ∧ ([msgA] : List GenericMessage) ≠ [] :=
  ⟨rfl, rfl, rfl, by simp⟩

/-- Claim C4 (amended): for every query with a positive limit `L`, the result
equals the last `L` elements, in arrival order, of the same query without a
limit; and `total_records` always equals the log's unfiltered length. -/
theorem C4_limit_is_suffix {Conn : Type} (ws : WebSocketManager Conn)
    (q : HistoricalDataQuery) (query2 : Option HistoricalDataQuery) :
    (∀ L : Int, q.limit = some L → 0 < L →
      (ws.get_historical_data (some q)).data
        = lastN L.toNat
            ((ws.get_historical_data (some { q with limit := Option.none })).data))
    ∧ (ws.get_historical_data query2).total_records
        = ws.message_history.length := by
  constructor
  · intro L hL hpos
    have hfilters : applyQueryFilters { q with limit := Option.none }
        ws.message_history = applyQueryFilters q ws.message_history := by
      cases q
      rfl
    have hne : (L == 0) = false := by
      simp only [beq_eq_false_iff_ne, ne_eq]
      omega
    unfold WebSocketManager.get_historical_data
    dsimp only
    rw [hL]
    dsimp only
    rw [hfilters, hne]
    simp only [Bool.not_false, if_true]
    exact pyListSliceFrom_neg L hpos _
  · rfl

/-- Witness for C4: limit 2 over three stored messages. -/
theorem C4_limit_is_suffix_witness :
    (wsC4b.get_historical_data (some qLimit2)).data
        = lastN ((2 : Int)).toNat
            ((wsC4b.get_historical_data
              (some { qLimit2 with limit := Option.none })).data)
      ∧ (wsC4b.get_historical_data (some qLimit2)).total_records = 3 := by
  constructor
  · exact (C4_limit_is_suffix wsC4b qLimit2 (some qLimit2)).1 2 rfl (by decide)
  · exact (C4_limit_is_suffix wsC4b qLimit2 (some qLimit2)).2

theorem broadcastLoop_eq {Conn : Type} (sendFails : Conn → Bool) (l : List Conn) :
    broadcastLoop sendFails l
      = (l.filter (fun c => !sendFails c), l.filter sendFails) := by
  induction l with
  | nil => rfl
  | cons c rest ih =>
    simp only [broadcastLoop, ih]
    by_cases h : sendFails c = true <;> simp [h, List.filter_cons]

theorem disconnect_eq {Conn : Type} [DecidableEq Conn] (s : WebSocketManager Conn)
    (c : Conn) :
    s.disconnect c
      = { s with active_connections := s.active_connections.erase c } := by
  unfold WebSocketManager.disconnect
  split
  · rfl
  · next h => rw [List.erase_of_not_mem h]

theorem foldl_disconnect_eq {Conn : Type} [DecidableEq Conn]
    (cs : List Conn) (s : WebSocketManager Conn) :
    cs.foldl (fun t c => t.disconnect c) s
      = { s with active_connections :=
            cs.foldl (fun ac c => ac.erase c) s.active_connections } := by
  induction cs generalizing s with
  | nil => rfl
  | cons c rest ih => rw [List.foldl_cons, List.foldl_cons, disconnect_eq, ih]

theorem diff_filter_self {α : Type} [DecidableEq α] (l : List α) (p : α → Bool) :
    List.foldl List.erase l (l.filter p) = l.filter (fun a => !p a) := by
  rw [← List.diff_eq_foldl]
  induction l with
  | nil => rfl
  | cons a t ih =>
    by_cases h : p a = true
    · rw [List.filter_cons_of_pos h, List.diff_cons, List.erase_cons_head, ih,
        List.filter_cons_of_neg (by simp [h])]
    · rw [List.filter_cons_of_neg (by simp [h]), List.cons_diff,
        if_neg (fun hm => by simp [List.of_mem_filter hm] at h), ih,
        List.filter_cons_of_pos (by simp [h])]

/-- Claim C6: during a broadcast the event is always appended to the history;
every observer whose delivery does not fail receives the event; and exactly
the observers whose delivery failed are removed from the connection set after
the delivery pass — all without raising (per-observer failures are caught). -/
theorem C6_broadcast_fault_isolation {Conn : Type} [DecidableEq Conn]
    (sendFails : Conn → Bool) (ws : WebSocketManager Conn) (m : GenericMessage) :
    ((ws.broadcast_message sendFails m).1.message_history
        = addToHistory ws.max_history_size ws.message_history m)
      ∧ ((ws.broadcast_message sendFails m).2
          = ws.active_connections.filter (fun c => !sendFails c))
      ∧ ((ws.broadcast_message sendFails m).1.active_connections
          = ws.active_connections.filter (fun c => !sendFails c)) := by
  unfold WebSocketManager.broadcast_message WebSocketManager.add_to_history
  dsimp only
  rcases hconn : ws.active_connections with _ | ⟨c, rest⟩
  · simp
  · simp only [List.isEmpty_cons, Bool.false_eq_true, if_false, broadcastLoop_eq,
      foldl_disconnect_eq]
    exact ⟨trivial, trivial, diff_filter_self (c :: rest) sendFails⟩

/-- Claim C7: a command whose name matches no known handler produces exactly
one broadcast `command_result` with status `error` whose message names the
unknown command; the simulator state is unchanged, no background work is
spawned, and handling does not raise. -/
theorem C7_unknown_command (sim : TelemetrySimulator) (order : Command) (now : Int)
    (h1 : order.command ≠ "set_update_interval")
    (h2 : order.command ≠ "reset_sensors")
    (h3 : order.command ≠ "set_sensor_value")
    (h4 : order.command ≠ "get_status")
    (h5 : order.command ≠ "calibrate_sensors") :
    sim.handle_command order now
      = (sim, [commandResultMessage
          { command := order.command, status := CommandStatus.error,
            message := "Unknown command: " ++ order.command } now], []) := by
  unfold TelemetrySimulator.handle_command TelemetrySimulator.execute_command
  simp [h1, h2, h3, h4, h5]

/-- Witness for C7: dispatching unknown command "foo" against the default
simulator. -/
theorem C7_unknown_command_witness :
    simDefault.handle_command { command := "foo", parameters := [] } 3
      = (simDefault, [commandResultMessage
          { command := "foo", status := CommandStatus.error,
            message := "Unknown command: foo" } 3], []) := by
  have h := C7_unknown_command simDefault { command := "foo", parameters := [] } 3
    (by decide) (by decide) (by decide) (by decide) (by decide)
  exact h

/-- Claim C8: dispatching the calibration command synchronously broadcasts
exactly one `pending` result and spawns the background task; the background
work clamps the requested duration into [1, 30], resets the sensors to the
calibrated values and broadcasts a `success` result whose details list the
calibrated sensors — or broadcasts an `error` result, leaving the state
untouched, when the background work fails on a non-numeric duration. -/
theorem C8_calibration_flow (sim : TelemetrySimulator) (order : Command)
    (now now2 : Int) (hc : order.command = "calibrate_sensors") :
    sim.handle_command order now
        = (sim, [commandResultMessage
            { command := order.command, status := CommandStatus.pending,
              message := "Calibration started, this will take a few seconds..." }
            now],
           [order])
      ∧ (∀ d : ℚ,
          (dictGet order.parameters ("duration") (PyVal.float 5)).toNumOpt
              = some d →
          sim.perform_calibration order now2
            = ({ sim with sensors :=
                  { temperature := 22, pressure := 1013, humidity := 50,
                    system_status := "operational" } },
               commandResultMessage
                 { command := order.command, status := CommandStatus.success,
                   message := "Sensor calibration completed in "
                     ++ toString (max (1 : ℚ) (min 30 d)) ++ " seconds",
                   details := some [("calibrated_sensors",
                       PyVal.list [PyVal.str ("temperature"), PyVal.str ("pressure"),
                         PyVal.str ("humidity"), PyVal.str ("system_status")]),
                     ("duration", PyVal.float (max (1 : ℚ) (min 30 d)))] } now2))
      ∧ ((dictGet order.parameters ("duration") (PyVal.float 5)).toNumOpt
            = Option.none →
          (sim.perform_calibration order now2).1 = sim
            ∧ (sim.perform_calibration order now2).2
                = commandResultMessage
                    { command := order.command, status := CommandStatus.error,
                      message :=
                        "Calibration failed: unsupported operand type for comparison" }
                    now2) := by
  obtain ⟨cmd, params⟩ := order
  have hc2 : cmd = "calibrate_sensors" := hc
  subst hc2
  refine ⟨rfl, fun d hd => ?_, fun hd => ?_⟩
  · unfold TelemetrySimulator.perform_calibration
    dsimp only at hd ⊢
    rw [hd]
  · unfold TelemetrySimulator.perform_calibration
    dsimp only at hd ⊢
    rw [hd]
    exact ⟨rfl, rfl⟩

/-- Witness for C8: calibration with requested duration 1 (already inside the
clamp range). -/
theorem C8_calibration_flow_witness :
    simDefault.handle_command
        { command := "calibrate_sensors",
          parameters := [("duration", PyVal.float 1)] } 3
      = (simDefault, [commandResultMessage
          { command := "calibrate_sensors", status := CommandStatus.pending,
            message := "Calibration started, this will take a few seconds..." } 3],
         [{ command := "calibrate_sensors",
            parameters := [("duration", PyVal.float 1)] }])
      ∧ simDefault.perform_calibration
          { command := "calibrate_sensors",
            parameters := [("duration", PyVal.float 1)] } 4
        = ({ simDefault with sensors :=
              { temperature := 22, pressure := 1013, humidity := 50,
                system_status := "operational" } },
           commandResultMessage
             { command := "calibrate_sensors", status := CommandStatus.success,
               message := "Sensor calibration completed in 1 seconds",
               details := some [("calibrated_sensors",
                   PyVal.list [PyVal.str ("temperature"), PyVal.str ("pressure"),
                     PyVal.str ("humidity"), PyVal.str ("system_status")]),
                 ("duration", PyVal.float 1)] } 4) := by
  constructor
  · exact (C8_calibration_flow simDefault
      { command := "calibrate_sensors", parameters := [("duration", PyVal.float 1)] }
      3 4 rfl).1
  · have h := (C8_calibration_flow simDefault
      { command := "calibrate_sensors", parameters := [("duration", PyVal.float 1)] }
      3 4 rfl).2.1 1 rfl
    exact h

end TelemetryApp
